import Mathlib

/-!
# Verification of the Oman Store Billing API backend

A shallow embedding of `main.py` / `schemas.py` of the billing backend:
MongoDB documents become association lists of field values, Python floats
become exact rationals (`ℚ`, with Python's `round(x, 3)` modelled as
half-even rounding at 3 decimal places), Python `datetime` values become
lexicographically ordered tuples, and handlers that can raise become
functions returning the threaded store state together with an
`Except Err` result.  HTTP-visible error classes are captured by `Err`:
`HTTPException(400)` / `(401)` by `badRequest` / `unauthorized`, a pydantic
`ValidationError` escaping a handler by `validationError` (HTTP 500), and a
bson `InvalidId` escaping a handler by `invalidObjectId` (HTTP 500).

The database helper module (`database.py`, not part of the two source
files) is modelled from the spec, §4.2: `create_document` serializes the
record and inserts it, adding only a creation timestamp when the schema
has one and it is absent; in particular an inserted invoice document has
exactly the `Invoice` schema's fields.
-/

unseal Rat.add Rat.sub Rat.mul Rat.inv Rat.ofScientific

/-- Python `datetime` restricted to the fields the code uses.  Python
compares datetimes lexicographically by (year, month, day, hour, minute,
second, microsecond); microseconds are irrelevant to every claim and are
omitted. -/
structure PyDateTime where
  year : Nat
  month : Nat
  day : Nat
  hour : Nat
  minute : Nat
  second : Nat
deriving DecidableEq, Repr

/-- `a <= b` on Python datetimes: lexicographic field comparison. -/
def pdtLE (a b : PyDateTime) : Bool :=
  a.year < b.year || (a.year == b.year &&
    (a.month < b.month || (a.month == b.month &&
      (a.day < b.day || (a.day == b.day &&
        (a.hour < b.hour || (a.hour == b.hour &&
          (a.minute < b.minute || (a.minute == b.minute &&
            a.second ≤ b.second)))))))))

/-- `a < b` on Python datetimes: lexicographic field comparison. -/
def pdtLT (a b : PyDateTime) : Bool :=
  pdtLE a b && !(a == b)

/-- A BSON value, restricted to the types the embedded code stores. -/
inductive Val where
  | str (s : String)
  | num (q : ℚ)
  | intV (n : Int)
  | dt (t : PyDateTime)
  | arr (vs : List Val)
  | nullV
deriving BEq

/-- A MongoDB document: an association list from field names to values. -/
def Doc : Type := List (String × Val)

/-- Field lookup in a document (first binding wins; documents built by the
embedding bind each key once). -/
def docLookup (d : Doc) (k : String) : Option Val :=
  match d with
  | [] => none
  | (k2, v) :: rest => if k2 == k then some v else docLookup rest k

/-- Read a field as a BSON datetime; any other type (or a missing field)
fails the `$gte`/`$lt` comparisons in an aggregation `$match`, modelled by
`none`. -/
def docDT (d : Doc) (k : String) : Option PyDateTime :=
  match docLookup d k with
  | some (.dt t) => some t
  | _ => none

/-- Read a field as a number for `$sum`; non-numeric or missing fields
contribute `0`, as Mongo's `$sum` ignores them. -/
def docNum (d : Doc) (k : String) : ℚ :=
  match docLookup d k with
  | some (.num q) => q
  | _ => 0

/- ----- schemas.py ----- -/

/-- `schemas.User`.  `role` is kept optional because `authenticate` reads
it defensively with `user.get("role", "cashier")`. -/
structure UserRec where
  username : String
  full_name : String
  role : Option String
  password_hash : String
  is_active : Bool
deriving DecidableEq, Repr

/-- `schemas.Product`.  `quantity` is an `Int` in the store model because
the `$inc` stock decrement in `create_invoice` can drive it negative. -/
structure Product where
  name : String
  category : String
  quantity : Int
  purchase_price : ℚ
  selling_price : ℚ
  barcode : Option String
deriving DecidableEq, Repr

/-- `schemas.InvoiceItem`. -/
structure InvoiceItem where
  product_id : String
  name : String
  quantity : Int
  price : ℚ
  total : ℚ
deriving DecidableEq, Repr

/-- `schemas.Invoice`. -/
structure Invoice where
  invoice_no : String
  customer_name : Option String
  customer_phone : Option String
  items : List InvoiceItem
  subtotal : ℚ
  discount : ℚ
  tax_rate : ℚ
  tax_amount : ℚ
  grand_total : ℚ
  created_at : Option PyDateTime
deriving DecidableEq, Repr

/-- `main.CartItem`: `quantity` is an unconstrained Python `int`. -/
structure CartItem where
  product_id : String
  quantity : Int
deriving DecidableEq, Repr

/-- `main.CreateInvoiceRequest`. -/
structure CreateInvoiceRequest where
  customer_name : Option String
  customer_phone : Option String
  items : List CartItem
  discount : ℚ
deriving DecidableEq, Repr

/-- `main.LoginResponse`. -/
structure LoginResponse where
  username : String
  role : String
deriving DecidableEq, Repr

/-- Outcome classes of a handler that raises.  `badRequest`,
`unauthorized` are `HTTPException(400)` / `(401)`; `validationError` is a
pydantic `ValidationError` escaping the handler (HTTP 500);
`invalidObjectId` is a bson `InvalidId` escaping the handler (HTTP 500). -/
inductive Err where
  | badRequest (detail : String)
  | unauthorized (detail : String)
  | validationError
  | invalidObjectId
deriving DecidableEq, Repr

/-- The persistent state the claims touch: the `product` collection
(document id paired with the product record; Mongo renders `_id` as a
lowercase hex string) and the `invoice` collection (raw documents, so that
field-level queries such as `count_documents({"date": ...})` can be
modelled). -/
structure Store where
  products : List (String × Product)
  invoices : List Doc

/-- Serialization of an embedded invoice item (field values in schema
order). -/
def serializeItemDoc (it : InvoiceItem) : Val :=
  .arr [.str it.product_id, .str it.name, .intV it.quantity,
        .num it.price, .num it.total]

/-- Serialization of an `Invoice` record by `create_document` (modelled
from spec §4.2: the inserted document carries exactly the schema's
fields; `created_at` is already set by the handler). -/
def serializeInvoice (inv : Invoice) : Doc :=
  [("invoice_no", .str inv.invoice_no),
   ("customer_name", match inv.customer_name with | some s => .str s | none => .nullV),
   ("customer_phone", match inv.customer_phone with | some s => .str s | none => .nullV),
   ("items", .arr (inv.items.map serializeItemDoc)),
   ("subtotal", .num inv.subtotal),
   ("discount", .num inv.discount),
   ("tax_rate", .num inv.tax_rate),
   ("tax_amount", .num inv.tax_amount),
   ("grand_total", .num inv.grand_total),
   ("created_at", match inv.created_at with | some t => .dt t | none => .nullV)]

/- ----- main.generate_invoice_no ----- -/

/-- Zero-padded decimal rendering, Python `"%04d"` / `strftime` style. -/
def padNum (w n : Nat) : String :=
  let s := toString n
  ⟨List.replicate (w - s.length) '0'⟩ ++ s

/-- `now.strftime("%Y%m%d")`. -/
def fmtDate (t : PyDateTime) : String :=
  padNum 4 t.year ++ padNum 2 t.month ++ padNum 2 t.day

/-- `main.generate_invoice_no`: formats the current UTC date and appends
`count_documents({"date": date_part}) + 1`, zero-padded to 4 digits.  The
count filter matches documents whose `date` field equals the date string
(a missing field never matches a string query). -/
def generate_invoice_no (invoices : List Doc) (now : PyDateTime) : String :=
  let date_part := fmtDate now
  let seq := (invoices.countP (fun d =>
    match docLookup d "date" with
    | some (.str s) => s == date_part
    | _ => false)) + 1
  "INV-" ++ date_part ++ "-" ++ padNum 4 seq

/- ----- main.authenticate ----- -/

/-- `main.authenticate`: `find_one({"username": u, "is_active": True})`
(first matching document), generic 401 on a missing active user or a
password mismatch, else the username and role (role defaulting to
"cashier" via `user.get("role", "cashier")`). -/
def authenticate (users : List UserRec) (username password : String) :
    Except Err LoginResponse :=
  match users.find? (fun u => u.username == username && u.is_active) with
  | none => .error (.unauthorized "Invalid credentials")
  | some u =>
    if u.password_hash == password then .ok ⟨u.username, u.role.getD "cashier"⟩
    else .error (.unauthorized "Invalid credentials")

/- ----- main.add_product ----- -/

/-- Python truthiness of an `Optional[str]`: `None` and `""` are falsy. -/
def strTruthy : Option String → Bool
  | none => false
  | some s => !(s == "")

/-- `main.add_product`: when the barcode is truthy, reject if any existing
product document has that barcode; otherwise insert and return the new
id. -/
def add_product (store : Store) (p : Product) (newId : String) :
    Store × Except Err String :=
  if strTruthy p.barcode then
    if store.products.any (fun pr => pr.2.barcode == p.barcode) then
      (store, .error (.badRequest "Barcode already exists"))
    else
      ({ store with products := store.products ++ [(newId, p)] }, .ok newId)
  else
    ({ store with products := store.products ++ [(newId, p)] }, .ok newId)

/- ----- rounding: Python round(x, 3) on exact rationals ----- -/

/-- Floor of a rational as an integer (`ediv` by the positive denominator
is floor division). -/
def ratFloor (q : ℚ) : Int :=
  q.num.ediv (q.den : Int)

/-- Round to the nearest integer, ties to even — Python's `round`.
Comparisons use the executable `Rat.blt` so that concrete instances
evaluate inside `decide`. -/
def roundHalfEven (q : ℚ) : Int :=
  if Rat.blt (q - (ratFloor q : ℚ)) (1/2) then ratFloor q
  else if Rat.blt (1/2) (q - (ratFloor q : ℚ)) then ratFloor q + 1
  else if (ratFloor q).emod 2 = 0 then ratFloor q else ratFloor q + 1

/-- Python `round(x, 3)` on the exact-rational model of the float. -/
def round3 (q : ℚ) : ℚ :=
  (roundHalfEven (q * 1000) : ℚ) / 1000

example : round3 0 = 0 := by decide
example : round3 1 = 1 := by decide
example : round3 (21 : ℚ) = 21 := by decide
example : round3 (1/2000) = 0 := by decide
example : round3 (3/2000) = 1/500 := by decide

/- ----- main.list_products and its Mongo $regex filters ----- -/

/-- A token of the PCRE subset that `list_products` actually generates:
plain characters, the any-character dot, and the `^` / `$` anchors that
the handler wraps around `category`.  (Quantifiers, classes, escapes and
alternation are outside the fragment this development instantiates; every
theorem below only applies patterns made of these tokens.) -/
inductive RTok where
  | lit (c : Char)
  | dot
  | caret
  | dollar
deriving DecidableEq, Repr

/-- Classify one pattern character. -/
def parseTok (c : Char) : RTok :=
  if c = '.' then .dot
  else if c = '^' then .caret
  else if c = '$' then .dollar
  else .lit c

/-- Read a pattern string into tokens. -/
def parseRegex (s : String) : List RTok :=
  s.data.map parseTok

/-- Case-insensitive character comparison (the `$options: "i"` flag). -/
def charEqCI (a b : Char) : Bool := a.toLower == b.toLower

/-- Match a token list against the characters starting at the current
position; the pattern may stop before the subject ends.  A `^` away from
the pattern start and a `$` before the subject end never match (single
line subjects, no multiline flag). -/
def matchFrom : List RTok → List Char → Bool
  | [], _ => true
  | .lit c :: ts, d :: ds => charEqCI c d && matchFrom ts ds
  | .lit _ :: _, [] => false
  | .dot :: ts, _ :: ds => matchFrom ts ds
  | .dot :: _, [] => false
  | .dollar :: ts, [] => matchFrom ts []
  | .dollar :: _, _ :: _ => false
  | .caret :: _, _ => false

/-- Try to match at every position of the subject. -/
def searchAnywhere : List RTok → List Char → Bool
  | toks, [] => matchFrom toks []
  | toks, c :: rest => matchFrom toks (c :: rest) || searchAnywhere toks rest

/-- Mongo `{"$regex": pat, "$options": "i"}` applied to a string field: an
unanchored, case-insensitive search, with a leading `^` anchoring the
match to the start. -/
def regexSearchCI (pat : String) (subject : String) : Bool :=
  match parseRegex pat with
  | .caret :: ts => matchFrom ts subject.data
  | ts => searchAnywhere ts subject.data

/-- The filter document built by `main.list_products`: each query
parameter contributes its clause only when truthy (Python `if q:` skips
`None` and `""`). -/
def productMatches (q category barcode : Option String) (p : Product) : Bool :=
  (match q with
   | some s => if s == "" then true else regexSearchCI s p.name
   | none => true)
  && (match category with
      | some s => if s == "" then true else regexSearchCI ("^" ++ s ++ "$") p.category
      | none => true)
  && (match barcode with
      | some s => if s == "" then true else p.barcode == some s
      | none => true)

/-- `main.list_products`: `find(fil).limit(50)` in natural (insertion)
order, ids already strings in the model. -/
def list_products (store : Store) (q category barcode : Option String) :
    List (String × Product) :=
  (store.products.filter (fun pr => productMatches q category barcode pr.2)).take 50

/- ----- spec-side matching predicates (from the claim's wording) ----- -/

/-- Case-insensitive prefix test on character lists (spec-side). -/
def isPrefixCI : List Char → List Char → Bool
  | [], _ => true
  | _ :: _, [] => false
  | a :: as, b :: bs => charEqCI a b && isPrefixCI as bs

/-- Case-insensitive substring test on character lists (spec-side). -/
def substrCIL : List Char → List Char → Bool
  | pat, [] => pat.isEmpty
  | pat, c :: rest => isPrefixCI pat (c :: rest) || substrCIL pat rest

/-- Spec wording for `q`: "matched case-insensitively as a literal
substring of the product name". -/
def substrCI (pat s : String) : Bool := substrCIL pat.data s.data

/-- Pointwise case-insensitive equality of character lists (spec-side). -/
def eqCIL : List Char → List Char → Bool
  | [], [] => true
  | [], _ :: _ => false
  | _ :: _, [] => false
  | a :: as, b :: bs => charEqCI a b && eqCIL as bs

/-- Spec wording for `category`: "matched case-insensitively as an exact
match". -/
def eqCI (a b : String) : Bool := eqCIL a.data b.data

/-- Characters with no special meaning in a PCRE pattern. -/
def plainChar (c : Char) : Bool :=
  !(['.', '^', '$', '*', '+', '?', '(', ')', '[', ']', '\x7b', '\x7d',
     '\\', '|'].contains c)

/-- A pattern string free of regex metacharacters. -/
def plainStr (s : String) : Bool := s.data.all plainChar

/-- An optional filter that, when supplied, is metacharacter-free. -/
def plainOpt : Option String → Bool
  | none => true
  | some s => plainStr s

/-- The claim's reading of the three filters, with empty-string filters
ignored (they are falsy in Python and contribute no clause). -/
def specMatches (q category barcode : Option String) (p : Product) : Bool :=
  (match q with
   | some s => if s == "" then true else substrCI s p.name
   | none => true)
  && (match category with
      | some s => if s == "" then true else eqCI s p.category
      | none => true)
  && (match barcode with
      | some s => if s == "" then true else p.barcode == some s
      | none => true)

/- ----- main.create_invoice ----- -/

/-- A hexadecimal digit (bson accepts either case). -/
def isHexDigit (c : Char) : Bool :=
  (('0' ≤ c) && (c ≤ '9')) || (('a' ≤ c) && (c ≤ 'f')) || (('A' ≤ c) && (c ≤ 'F'))

/-- `bson.ObjectId(s)` succeeds exactly on 24-character hex strings;
anything else raises `InvalidId`. -/
def isValidOid (s : String) : Bool :=
  s.length == 24 && s.data.all isHexDigit

/-- First product document with the given `_id` string (Mongo `_id`s are
unique, so first match is the match).  `prod_map.get(ci.product_id)`
reduces to this lookup because the batch `$in` query collects exactly the
cart's ids. -/
def lookupProduct (store : Store) (pid : String) : Option Product :=
  (store.products.find? (fun pr => pr.1 == pid)).map (fun pr => pr.2)

/-- Constructing an `InvoiceItemSchema`: pydantic validates `quantity ≥ 1`,
`price ≥ 0`, `total ≥ 0` and raises `ValidationError` otherwise. -/
def mkInvoiceItem (pid name : String) (qty : Int) (price total : ℚ) :
    Except Err InvoiceItem :=
  if 1 ≤ qty ∧ 0 ≤ price ∧ 0 ≤ total then .ok ⟨pid, name, qty, price, total⟩
  else .error .validationError

/-- The validation/snapshot loop of `create_invoice` (lines 133–147): for
each cart item in order, resolve the product, check stock, build the
snapshot item, and accumulate the subtotal. -/
def processItems (store : Store) : List CartItem → Except Err (List InvoiceItem × ℚ)
  | [] => .ok ([], 0)
  | ci :: rest =>
    match lookupProduct store ci.product_id with
    | none => .error (.badRequest ("Product not found: " ++ ci.product_id))
    | some p =>
      if p.quantity < ci.quantity then
        .error (.badRequest ("Insufficient stock for " ++ p.name))
      else
        let line_total := (ci.quantity : ℚ) * p.selling_price
        match mkInvoiceItem ci.product_id p.name ci.quantity p.selling_price line_total with
        | .error e => .error e
        | .ok item =>
          match processItems store rest with
          | .error e => .error e
          | .ok (its, sub) => .ok (item :: its, line_total + sub)

/-- `float(payload.discount or 0)`: `0.0` is falsy, everything else
passes through. -/
def coerceDiscount (d : ℚ) : ℚ := if d == 0 then 0 else d

/-- Line 150: `taxable = max(subtotal - discount, 0)`. -/
def taxableBase (subtotal discount : ℚ) : ℚ := max (subtotal - discount) 0

/-- Constructing an `InvoiceSchema`: pydantic validates the `ge=0` bounds
on `subtotal`, `discount`, `tax_rate`, `tax_amount` and `grand_total`,
raising `ValidationError` otherwise (the embedded items were already
validated when built). -/
def mkInvoice (no : String) (cn cp : Option String) (items : List InvoiceItem)
    (subtotal discount tax_rate tax_amount grand_total : ℚ)
    (created_at : Option PyDateTime) : Except Err Invoice :=
  if 0 ≤ subtotal ∧ 0 ≤ discount ∧ 0 ≤ tax_rate ∧ 0 ≤ tax_amount ∧ 0 ≤ grand_total then
    .ok ⟨no, cn, cp, items, subtotal, discount, tax_rate, tax_amount, grand_total, created_at⟩
  else .error .validationError

/-- `update_one({"_id": id}, {"$inc": {"quantity": -q}})`: decrement the
first (only) product document with that id. -/
def updateFirst : List (String × Product) → String → Int → List (String × Product)
  | [], _, _ => []
  | (id2, p) :: rest, target, q =>
    if id2 == target then (id2, { p with quantity := p.quantity - q }) :: rest
    else (id2, p) :: updateFirst rest target q

/-- The stock-decrement loop of `create_invoice` (lines 171–172), one
`update_one` per cart line. -/
def decrementAll (prods : List (String × Product)) (items : List CartItem) :
    List (String × Product) :=
  items.foldl (fun ps ci => updateFirst ps ci.product_id ci.quantity) prods

/-- `main.create_invoice`.  Mirrors the handler's order of effects: the
`ObjectId` conversions of line 128 (an invalid id raises `InvalidId`
before anything else), the validation/snapshot loop, the totals of lines
149–153 with the fixed 5% tax rate, the `InvoiceSchema` construction, the
insert, and only then the stock decrement.  All raising paths leave the
store untouched because no write precedes them in the source.  Returns
the new store plus the response's `invoice_no` (the inserted `_id` is
opaque and unclaimed). -/
def create_invoice (store : Store) (payload : CreateInvoiceRequest)
    (now : PyDateTime) : Store × Except Err String :=
  if payload.items.all (fun i => isValidOid i.product_id) then
    match processItems store payload.items with
    | .error e => (store, .error e)
    | .ok (invoice_items, subtotal) =>
      let discount := coerceDiscount payload.discount
      let taxable := taxableBase subtotal discount
      let tax_rate : ℚ := 5/100
      let tax_amount := round3 (taxable * tax_rate)
      let grand_total := round3 (taxable + tax_amount)
      match mkInvoice (generate_invoice_no store.invoices now)
          payload.customer_name payload.customer_phone invoice_items
          (round3 subtotal) (round3 discount) tax_rate tax_amount grand_total
          (some now) with
      | .error e => (store, .error e)
      | .ok inv =>
        let afterInsert : Store :=
          { store with invoices := store.invoices ++ [serializeInvoice inv] }
        ({ afterInsert with
            products := decrementAll afterInsert.products payload.items },
         .ok inv.invoice_no)
  else (store, .error .invalidObjectId)

/- ----- main.monthly_report ----- -/

/-- The `$group` accumulator row of the report pipelines. -/
structure ReportRow where
  sales : ℚ
  subtotal : ℚ
  discount : ℚ
  tax : ℚ
  count : Nat
deriving DecidableEq, Repr

/-- Sum a numeric field over documents (`$sum: "$field"`). -/
def sumField (docs : List Doc) (k : String) : ℚ :=
  (docs.map (fun d => docNum d k)).sum

/-- `main.monthly_report`: `year`/`month` default to the current UTC
values when absent or falsy (Python `year or now.year` also replaces
`0`); `$match` keeps invoices with `start <= created_at < end` where
`end` rolls December over to January 1 of the next year; `$group` sums
the four totals and counts; an empty match returns the literal all-zero
row (which coincides with empty sums). -/
def monthly_report (invoices : List Doc) (year month : Option Nat)
    (now : PyDateTime) : ReportRow :=
  let y := match year with
    | some v => if v ≠ 0 then v else now.year
    | none => now.year
  let m := match month with
    | some v => if v ≠ 0 then v else now.month
    | none => now.month
  let start : PyDateTime := ⟨y, m, 1, 0, 0, 0⟩
  let stop : PyDateTime :=
    ⟨y + (if m == 12 then 1 else 0), if m == 12 then 1 else m + 1, 1, 0, 0, 0⟩
  let matched := invoices.filter (fun d =>
    match docDT d "created_at" with
    | some t => pdtLE start t && pdtLT t stop
    | none => false)
  if matched.isEmpty then ⟨0, 0, 0, 0, 0⟩
  else ⟨sumField matched "grand_total", sumField matched "subtotal",
        sumField matched "discount", sumField matched "tax_amount",
        matched.length⟩

/- ----- spec-side definitions used to state the claims ----- -/

/-- The claim's "sum over cart lines of quantity times the product's
stored selling price". -/
def cartSubtotal (store : Store) (items : List CartItem) : ℚ :=
  (items.map (fun ci => (ci.quantity : ℚ) *
    (match lookupProduct store ci.product_id with
     | some p => p.selling_price
     | none => 0))).sum

/-- A cart line that sails through the validation loop: it resolves to an
existing product, wants at least one unit, is within stock, and snapshots
a non-negative price. -/
def CleanLine (store : Store) (ci : CartItem) : Prop :=
  ∃ p, lookupProduct store ci.product_id = some p ∧
    ci.quantity ≤ p.quantity ∧ 1 ≤ ci.quantity ∧ 0 ≤ p.selling_price

/-- First instant of a month (the claim's interval endpoint). -/
def monthStart (y m : Nat) : PyDateTime := ⟨y, m, 1, 0, 0, 0⟩

/-- First instant of the following month, rolling December over. -/
def nextMonthStart (y m : Nat) : PyDateTime :=
  if m = 12 then ⟨y + 1, 1, 1, 0, 0, 0⟩ else ⟨y, m + 1, 1, 0, 0, 0⟩

/-- The claim's "creation timestamp lies in the half-open interval
[first instant of month m of year y, first instant of the following
month)"; an invoice without a timestamp is in no interval. -/
def inMonth (y m : Nat) (t : Option PyDateTime) : Bool :=
  match t with
  | some ts => pdtLE (monthStart y m) ts && pdtLT ts (nextMonthStart y m)
  | none => false

/- ----- serialization lemmas ----- -/

/-- A serialized invoice document has no `date` field. -/
theorem serializeInvoice_date (inv : Invoice) :
    docLookup (serializeInvoice inv) "date" = none := rfl

/-- Reading `created_at` back from a serialized invoice. -/
theorem serializeInvoice_created_at (inv : Invoice) :
    docDT (serializeInvoice inv) "created_at" = inv.created_at := by
  obtain ⟨no, cn, cp, its, st, d, tr, ta, gt, ca⟩ := inv
  cases ca <;> rfl

theorem serializeInvoice_grand_total (inv : Invoice) :
    docNum (serializeInvoice inv) "grand_total" = inv.grand_total := rfl

theorem serializeInvoice_subtotal (inv : Invoice) :
    docNum (serializeInvoice inv) "subtotal" = inv.subtotal := rfl

theorem serializeInvoice_discount (inv : Invoice) :
    docNum (serializeInvoice inv) "discount" = inv.discount := rfl

theorem serializeInvoice_tax_amount (inv : Invoice) :
    docNum (serializeInvoice inv) "tax_amount" = inv.tax_amount := rfl

/- ----- C1 ----- -/

/-- C1 (claim refuted, code bug): the sequence read in
`generate_invoice_no` counts invoice documents whose `date` field equals
the current `YYYYMMDD` string, but serialized invoices carry no `date`
field at all, so over any store of recorded invoices the count is `0` and
every invoice number ends in `0001` — the second invoice of a day repeats
`INV-YYYYMMDD-0001` instead of receiving `0002`. -/
theorem generate_invoice_no_always_first_seq (invs : List Invoice) (now : PyDateTime) :
    generate_invoice_no (invs.map serializeInvoice) now =
      "INV-" ++ fmtDate now ++ "-" ++ "0001" := by
  have h0 : (invs.map serializeInvoice).countP (fun d =>
      match docLookup d "date" with
      | some (.str s) => s == fmtDate now
      | _ => false) = 0 := by
    rw [List.countP_map]
    apply List.countP_eq_zero.mpr
    intro i _
    simp [Function.comp_apply, serializeInvoice_date]
  simp only [generate_invoice_no, h0]
  rfl

/- ----- C10 ----- -/

/-- C10 (confirmed): an empty-string barcode is falsy in Python, so
`add_product` skips the uniqueness lookup entirely and always inserts,
whatever products (including other empty-barcode ones) the store holds. -/
theorem add_product_empty_barcode_skips_check (store : Store) (p : Product)
    (newId : String) (h : p.barcode = some "") :
    add_product store p newId =
      ({ store with products := store.products ++ [(newId, p)] }, .ok newId) := by
  simp [add_product, strTruthy, h]

def emptyBarcodeProduct : Product :=
  ⟨"Loose candy", "General", 7, 1/10, 1/4, some ""⟩

def emptyBarcodeStore : Store :=
  ⟨[("aaaaaaaaaaaaaaaaaaaaaaaa", ⟨"Older loose item", "General", 2, 1, 2, some ""⟩)], []⟩

/-- Witness for C10: adding an empty-barcode product succeeds even though
another product with an empty-string barcode is already present. -/
theorem add_product_empty_barcode_skips_check_witness :
    add_product emptyBarcodeStore emptyBarcodeProduct "bbbbbbbbbbbbbbbbbbbbbbbb" =
      ({ emptyBarcodeStore with
          products := emptyBarcodeStore.products ++
            [("bbbbbbbbbbbbbbbbbbbbbbbb", emptyBarcodeProduct)] },
       .ok "bbbbbbbbbbbbbbbbbbbbbbbb") :=
  add_product_empty_barcode_skips_check emptyBarcodeStore emptyBarcodeProduct
    "bbbbbbbbbbbbbbbbbbbbbbbb" rfl

/- ----- C8 ----- -/

/-- C8 (confirmed): authentication returns the generic 401 both when no
active user carries the presented username (an inactive match counts as
none) and when the first active match's stored `password_hash` differs
from the presented password — the two failures are literally the same
response — and on success returns the user's username and role (role
defaulting to "cashier"). -/
theorem authenticate_spec (users : List UserRec) (cu cp : String) :
    ((∀ u ∈ users, ¬(u.username = cu ∧ u.is_active = true)) →
      authenticate users cu cp = .error (.unauthorized "Invalid credentials")) ∧
    (∀ u, users.find? (fun x => x.username == cu && x.is_active) = some u →
      u.password_hash ≠ cp →
      authenticate users cu cp = .error (.unauthorized "Invalid credentials")) ∧
    (∀ u, users.find? (fun x => x.username == cu && x.is_active) = some u →
      u.password_hash = cp →
      authenticate users cu cp = .ok ⟨u.username, u.role.getD "cashier"⟩) := by
  refine ⟨fun hnone => ?_, fun u hfind hne => ?_, fun u hfind heq => ?_⟩
  · have : users.find? (fun x => x.username == cu && x.is_active) = none := by
      apply List.find?_eq_none.mpr
      intro u hu
      have := hnone u hu
      simp only [Bool.and_eq_true, beq_iff_eq]
      intro hcontra
      exact this ⟨hcontra.1, hcontra.2⟩
    simp [authenticate, this]
  · simp only [authenticate, hfind]
    have : (u.password_hash == cp) = false := by
      simpa using hne
    simp [this]
  · simp [authenticate, hfind, heq]

def demoUsers : List UserRec :=
  [⟨"bob", "Bob Stone", some "admin", "pw1", false⟩,
   ⟨"alice", "Alice Reef", none, "secret", true⟩]

/-- Witness for C8: an inactive user is rejected with the generic message
even with the right password, a wrong password gets the identical
response, and a correct active login returns username and default role. -/
theorem authenticate_spec_witness :
    authenticate demoUsers "bob" "pw1" = .error (.unauthorized "Invalid credentials") ∧
    authenticate demoUsers "alice" "nope" = .error (.unauthorized "Invalid credentials") ∧
    authenticate demoUsers "alice" "secret" = .ok ⟨"alice", "cashier"⟩ :=
  ⟨(authenticate_spec demoUsers "bob" "pw1").1 (by decide),
   (authenticate_spec demoUsers "alice" "nope").2.1
     ⟨"alice", "Alice Reef", none, "secret", true⟩ (by decide) (by decide),
   (authenticate_spec demoUsers "alice" "secret").2.2
     ⟨"alice", "Alice Reef", none, "secret", true⟩ (by decide) rfl⟩

/- ----- processItems lemmas ----- -/

/-- A clean line never aborts the loop: an error of the remaining lines
passes through unchanged. -/
theorem processItems_cons_err (store : Store) (ci : CartItem)
    (rest : List CartItem) (e : Err) (h : CleanLine store ci)
    (hrest : processItems store rest = .error e) :
    processItems store (ci :: rest) = .error e := by
  obtain ⟨p, hl, hq, h1, hp⟩ := h
  have hnotlt : ¬(p.quantity < ci.quantity) := not_lt.mpr hq
  have hqc : (0 : ℚ) ≤ (ci.quantity : ℚ) := by
    exact_mod_cast le_trans Int.one_nonneg h1
  have htot : (0 : ℚ) ≤ (ci.quantity : ℚ) * p.selling_price := mul_nonneg hqc hp
  simp only [processItems, hl]
  rw [if_neg hnotlt]
  simp only [mkInvoiceItem]
  rw [if_pos ⟨h1, hp, htot⟩]
  simp [hrest]

/-- A prefix of clean lines never aborts the loop. -/
theorem processItems_append_err (store : Store) (pre l : List CartItem) (e : Err)
    (hpre : ∀ cj ∈ pre, CleanLine store cj)
    (hl : processItems store l = .error e) :
    processItems store (pre ++ l) = .error e := by
  induction pre with
  | nil => simpa using hl
  | cons c cs ih =>
    have hc : CleanLine store c := hpre c (by simp)
    have hcs : ∀ cj ∈ cs, CleanLine store cj := fun cj hj => hpre cj (by simp [hj])
    exact processItems_cons_err store c (cs ++ l) e hc (ih hcs)

/- ----- C2 ----- -/

def oidA : String := "aaaaaaaaaaaaaaaaaaaaaaaa"

def appleProd : Product := ⟨"Apple", "General", 5, 6, 10, none⟩

def appleStore : Store := ⟨[(oidA, appleProd)], []⟩

def someNow : PyDateTime := ⟨2026, 10, 12, 9, 0, 0⟩

/-- Counterexample to C2 as stated: in the cart
`[(apple, 0), (apple, 10)]` the second line's quantity (10) exceeds the
apple's stock (5), so the claim demands a 400 naming the apple — but the
handler reaches the zero-quantity first line, whose
`InvoiceItemSchema(quantity=0)` raises a pydantic `ValidationError`
(HTTP 500), which is no Bad-Request at all.  The store is unchanged. -/
theorem create_invoice_insufficient_not_bad_request_cex :
    create_invoice appleStore ⟨none, none, [⟨oidA, 0⟩, ⟨oidA, 10⟩], 0⟩ someNow
      = (appleStore, .error .validationError) ∧
    lookupProduct appleStore oidA = some appleProd ∧
    appleProd.quantity < (10 : Int) ∧
    Err.validationError ≠ Err.badRequest ("Insufficient stock for " ++ appleProd.name) :=
  ⟨rfl, rfl, by decide, by decide⟩

/-- C2 (amended): when every cart id is a well-formed ObjectId string and
every line before the offending one is clean, a line whose quantity
exceeds the referenced product's stock fails the whole request with the
400 "Insufficient stock for <name>" error, and the store is returned
unchanged — no invoice document, no stock decrement, not even for the
earlier lines. -/
theorem create_invoice_insufficient_stock_amended
    (store : Store) (payload : CreateInvoiceRequest) (now : PyDateTime)
    (pre rest : List CartItem) (bad : CartItem) (p : Product)
    (hitems : payload.items = pre ++ bad :: rest)
    (hoids : payload.items.all (fun i => isValidOid i.product_id) = true)
    (hpre : ∀ cj ∈ pre, CleanLine store cj)
    (hlook : lookupProduct store bad.product_id = some p)
    (hstock : p.quantity < bad.quantity) :
    create_invoice store payload now =
      (store, .error (.badRequest ("Insufficient stock for " ++ p.name))) := by
  have hbad : processItems store (bad :: rest) =
      .error (.badRequest ("Insufficient stock for " ++ p.name)) := by
    simp only [processItems, hlook]
    rw [if_pos hstock]
  have hall : processItems store payload.items =
      .error (.badRequest ("Insufficient stock for " ++ p.name)) := by
    rw [hitems]
    exact processItems_append_err store pre (bad :: rest) _ hpre hbad
  simp [create_invoice, hoids, hall]

/-- Witness for the amended C2: a single-line cart asking for 10 of a
stock-5 product is rejected with the named 400 and no mutation. -/
theorem create_invoice_insufficient_stock_amended_witness :
    create_invoice appleStore ⟨none, none, [⟨oidA, 10⟩], 0⟩ someNow =
      (appleStore, .error (.badRequest ("Insufficient stock for " ++ appleProd.name))) :=
  create_invoice_insufficient_stock_amended appleStore
    ⟨none, none, [⟨oidA, 10⟩], 0⟩ someNow [] [] ⟨oidA, 10⟩ appleProd
    rfl (by decide) (by intro cj hj; cases hj) rfl (by decide)

/- ----- C3 ----- -/

/-- Counterexample to C3 as stated: the id `"zzz"` matches no product,
but because it is not a well-formed ObjectId the handler's
`ObjectId(i.product_id)` conversion raises bson's `InvalidId` (an
unhandled exception, HTTP 500) instead of the claimed Bad-Request naming
the identifier.  No invoice is created and no stock changes. -/
theorem create_invoice_unknown_product_cex :
    lookupProduct appleStore "zzz" = none ∧
    create_invoice appleStore ⟨none, none, [⟨"zzz", 1⟩], 0⟩ someNow
      = (appleStore, .error .invalidObjectId) ∧
    Err.invalidObjectId ≠ Err.badRequest ("Product not found: " ++ "zzz") :=
  ⟨rfl, rfl, by decide⟩

/-- C3 (amended): when every cart id is a well-formed ObjectId string and
every line before the offending one is clean, a cart entry whose id
matches no product fails the whole request with the 400
"Product not found: <id>" error naming the identifier, and the store is
returned unchanged — no invoice document, no stock change. -/
theorem create_invoice_unknown_product_amended
    (store : Store) (payload : CreateInvoiceRequest) (now : PyDateTime)
    (pre rest : List CartItem) (bad : CartItem)
    (hitems : payload.items = pre ++ bad :: rest)
    (hoids : payload.items.all (fun i => isValidOid i.product_id) = true)
    (hpre : ∀ cj ∈ pre, CleanLine store cj)
    (hlook : lookupProduct store bad.product_id = none) :
    create_invoice store payload now =
      (store, .error (.badRequest ("Product not found: " ++ bad.product_id))) := by
  have hbad : processItems store (bad :: rest) =
      .error (.badRequest ("Product not found: " ++ bad.product_id)) := by
    simp [processItems, hlook]
  have hall : processItems store payload.items =
      .error (.badRequest ("Product not found: " ++ bad.product_id)) := by
    rw [hitems]
    exact processItems_append_err store pre (bad :: rest) _ hpre hbad
  simp [create_invoice, hoids, hall]

def oidB : String := "bbbbbbbbbbbbbbbbbbbbbbbb"

/-- Witness for the amended C3: a well-formed but unknown id is rejected
with the named 400 and no mutation, even after a clean first line. -/
theorem create_invoice_unknown_product_amended_witness :
    create_invoice appleStore ⟨none, none, [⟨oidA, 2⟩, ⟨oidB, 1⟩], 0⟩ someNow =
      (appleStore, .error (.badRequest ("Product not found: " ++ oidB))) :=
  create_invoice_unknown_product_amended appleStore
    ⟨none, none, [⟨oidA, 2⟩, ⟨oidB, 1⟩], 0⟩ someNow [⟨oidA, 2⟩] [] ⟨oidB, 1⟩
    rfl (by decide)
    (by
      intro cj hj
      simp only [List.mem_singleton] at hj
      exact hj ▸ ⟨appleProd, rfl, by decide, by decide, by decide⟩)
    rfl

/- ----- success-path lemmas ----- -/

/-- `float(d or 0)` is the identity on the rational model: `0.0` maps to
`0` and any other value to itself. -/
theorem coerceDiscount_eq (d : ℚ) : coerceDiscount d = d := by
  unfold coerceDiscount
  split
  · next hbeq => exact (eq_of_beq hbeq).symm
  · rfl

theorem ratFloor_nonneg {q : ℚ} (h : 0 ≤ q) : 0 ≤ ratFloor q :=
  Int.ediv_nonneg (Rat.num_nonneg.mpr h) (by positivity)

theorem roundHalfEven_nonneg {q : ℚ} (h : 0 ≤ q) : 0 ≤ roundHalfEven q := by
  unfold roundHalfEven
  have hf := ratFloor_nonneg h
  split_ifs <;> omega

theorem round3_nonneg {q : ℚ} (h : 0 ≤ q) : 0 ≤ round3 q := by
  unfold round3
  have h2 : (0 : ℚ) ≤ (roundHalfEven (q * 1000) : ℚ) := by
    exact_mod_cast roundHalfEven_nonneg (by positivity)
  exact div_nonneg h2 (by norm_num)

theorem taxableBase_nonneg (s d : ℚ) : 0 ≤ taxableBase s d := le_max_right _ _

/-- Inversion of a successful `InvoiceSchema` construction. -/
theorem mkInvoice_ok_inv {no : String} {cn cp : Option String}
    {items : List InvoiceItem} {subtotal discount tax_rate tax_amount grand_total : ℚ}
    {created_at : Option PyDateTime} {inv : Invoice}
    (h : mkInvoice no cn cp items subtotal discount tax_rate tax_amount
      grand_total created_at = .ok inv) :
    inv = ⟨no, cn, cp, items, subtotal, discount, tax_rate, tax_amount,
      grand_total, created_at⟩ ∧
    0 ≤ subtotal ∧ 0 ≤ discount ∧ 0 ≤ tax_rate ∧ 0 ≤ tax_amount ∧ 0 ≤ grand_total := by
  unfold mkInvoice at h
  split_ifs at h with hc
  exact ⟨(Except.ok.inj h).symm, hc⟩

/-- The loop's accumulated subtotal is the sum over cart lines of
quantity times the resolved product's selling price. -/
theorem processItems_ok_subtotal (store : Store) :
    ∀ (items : List CartItem) (its : List InvoiceItem) (S : ℚ),
      processItems store items = .ok (its, S) → S = cartSubtotal store items := by
  intro items
  induction items with
  | nil =>
    intro its S h
    simp only [processItems, Except.ok.injEq] at h
    simp [cartSubtotal, ← (Prod.mk.injEq _ _ _ _ |>.mp h).2]
  | cons ci rest ih =>
    intro its S h
    rw [processItems] at h
    cases hl : lookupProduct store ci.product_id with
    | none => rw [hl] at h; exact absurd h (by simp)
    | some p =>
      rw [hl] at h
      dsimp only at h
      by_cases hstk : p.quantity < ci.quantity
      · rw [if_pos hstk] at h; exact absurd h (by simp)
      · rw [if_neg hstk] at h
        cases hmk : mkInvoiceItem ci.product_id p.name ci.quantity p.selling_price
            ((ci.quantity : ℚ) * p.selling_price) with
        | error e => rw [hmk] at h; exact absurd h (by simp)
        | ok item =>
          rw [hmk] at h
          dsimp only at h
          cases hrec : processItems store rest with
          | error e => rw [hrec] at h; exact absurd h (by simp)
          | ok pair =>
            obtain ⟨its2, sub2⟩ := pair
            rw [hrec] at h
            dsimp only at h
            simp only [Except.ok.injEq, Prod.mk.injEq] at h
            rw [← h.2, ih its2 sub2 hrec]
            simp [cartSubtotal, hl]

/-- Inversion of a successful `create_invoice`: the loop succeeded, the
invoice record is exactly the one built from the handler's totals, the
new store appends its serialization and decrements the cart's stock, and
the returned string is its invoice number. -/
theorem create_invoice_ok_inv (store : Store) (payload : CreateInvoiceRequest)
    (now : PyDateTime) (store2 : Store) (no : String)
    (h : create_invoice store payload now = (store2, .ok no)) :
    ∃ its S inv,
      processItems store payload.items = .ok (its, S) ∧
      mkInvoice (generate_invoice_no store.invoices now) payload.customer_name
        payload.customer_phone its (round3 S)
        (round3 (coerceDiscount payload.discount)) (5/100)
        (round3 (taxableBase S (coerceDiscount payload.discount) * (5/100)))
        (round3 (taxableBase S (coerceDiscount payload.discount) +
          round3 (taxableBase S (coerceDiscount payload.discount) * (5/100))))
        (some now) = .ok inv ∧
      store2 = ⟨decrementAll store.products payload.items,
                store.invoices ++ [serializeInvoice inv]⟩ ∧
      no = inv.invoice_no := by
  unfold create_invoice at h
  split_ifs at h with hoids
  · cases hp : processItems store payload.items with
    | error e => rw [hp] at h; exact absurd h (by simp)
    | ok pair =>
      obtain ⟨its, S⟩ := pair
      rw [hp] at h
      dsimp only at h
      cases hmk : mkInvoice (generate_invoice_no store.invoices now)
          payload.customer_name payload.customer_phone its (round3 S)
          (round3 (coerceDiscount payload.discount)) (5/100)
          (round3 (taxableBase S (coerceDiscount payload.discount) * (5/100)))
          (round3 (taxableBase S (coerceDiscount payload.discount) +
            round3 (taxableBase S (coerceDiscount payload.discount) * (5/100))))
          (some now) with
      | error e => rw [hmk] at h; exact absurd h (by simp)
      | ok inv =>
        rw [hmk] at h
        dsimp only at h
        simp only [Prod.mk.injEq, Except.ok.injEq] at h
        exact ⟨its, S, inv, rfl, hmk, h.1.symm, h.2.symm⟩
  · exact absurd h (by simp)

/- ----- C4 ----- -/

/-- C4 (confirmed): a successful creation stores an invoice whose
subtotal is (the 3-dp rounding of) the sum over cart lines of quantity
times the stored selling price, whose tax is the taxable base
`max(subtotal - discount, 0)` times the fixed 5% rate rounded to 3
decimal places, and whose grand total is the taxable base plus the tax
amount rounded to 3 decimal places. -/
theorem create_invoice_totals_formulas (store : Store)
    (payload : CreateInvoiceRequest) (now : PyDateTime) (store2 : Store)
    (no : String) (h : create_invoice store payload now = (store2, .ok no)) :
    ∃ inv,
      store2.invoices = store.invoices ++ [serializeInvoice inv] ∧
      inv.subtotal = round3 (cartSubtotal store payload.items) ∧
      inv.tax_amount =
        round3 (taxableBase (cartSubtotal store payload.items) payload.discount * (5/100)) ∧
      inv.grand_total =
        round3 (taxableBase (cartSubtotal store payload.items) payload.discount +
          inv.tax_amount) := by
  obtain ⟨its, S, inv, hproc, hmk, hstore, hno⟩ :=
    create_invoice_ok_inv store payload now store2 no h
  have hS := processItems_ok_subtotal store payload.items its S hproc
  obtain ⟨hinv, _⟩ := mkInvoice_ok_inv hmk
  subst hS
  subst hinv
  exact ⟨_, by rw [hstore], by simp [coerceDiscount_eq],
    by simp [coerceDiscount_eq], by simp [coerceDiscount_eq]⟩

def appleSale : CreateInvoiceRequest := ⟨none, none, [⟨oidA, 2⟩], 0⟩

def appleInvoice : Invoice :=
  ⟨"INV-20261012-0001", none, none, [⟨oidA, "Apple", 2, 10, 20⟩],
   20, 0, 5/100, 1, 21, some someNow⟩

def appleStoreAfter : Store :=
  ⟨[(oidA, { appleProd with quantity := 3 })], [serializeInvoice appleInvoice]⟩

/-- Selling 2 units of the 10.000-priced apple with discount 0 produces
subtotal 20, tax 1, grand total 21 and stock 3. -/
theorem appleSale_result :
    create_invoice appleStore appleSale someNow =
      (appleStoreAfter, .ok "INV-20261012-0001") := rfl

/-- Witness for C4, at the spec's own example: 2 × price 10.000,
discount 0 gives subtotal 20.000, tax 1.000 and grand total 21.000. -/
theorem create_invoice_totals_formulas_witness :
    (∃ inv,
      appleStoreAfter.invoices = appleStore.invoices ++ [serializeInvoice inv] ∧
      inv.subtotal = round3 (cartSubtotal appleStore appleSale.items) ∧
      inv.tax_amount =
        round3 (taxableBase (cartSubtotal appleStore appleSale.items) appleSale.discount * (5/100)) ∧
      inv.grand_total =
        round3 (taxableBase (cartSubtotal appleStore appleSale.items) appleSale.discount +
          inv.tax_amount)) ∧
    round3 (cartSubtotal appleStore appleSale.items) = 20 ∧
    round3 (taxableBase (cartSubtotal appleStore appleSale.items) appleSale.discount * (5/100)) = 1 ∧
    round3 (taxableBase (cartSubtotal appleStore appleSale.items) appleSale.discount + 1) = 21 :=
  ⟨create_invoice_totals_formulas appleStore appleSale someNow appleStoreAfter
      "INV-20261012-0001" appleSale_result,
   by decide, by decide, by decide⟩

/- ----- C5 ----- -/

def emptyStore : Store := ⟨[], []⟩

/-- Counterexample to C5 as stated: a request with an empty items list is
not rejected — `create_invoice` happily records an invoice with no lines,
subtotal 0 and grand total 0, returning its number. -/
theorem create_invoice_empty_cart_succeeds_cex :
    create_invoice emptyStore ⟨none, none, [], 0⟩ someNow =
      (⟨[], [serializeInvoice
          ⟨"INV-20261012-0001", none, none, [], 0, 0, 5/100, 0, 0, some someNow⟩]⟩,
       .ok "INV-20261012-0001") := rfl

/-- C5 (amended): invoice creation does not require a non-empty cart: any
empty-items request whose discount rounds to a non-negative value
succeeds, storing an invoice with no items and subtotal 0 and leaving the
product collection untouched. -/
theorem create_invoice_empty_cart_amended (store : Store) (cn cp : Option String)
    (d : ℚ) (now : PyDateTime) (hd : 0 ≤ round3 d) :
    ∃ inv, create_invoice store ⟨cn, cp, [], d⟩ now =
      ({ store with invoices := store.invoices ++ [serializeInvoice inv] },
       .ok inv.invoice_no) ∧
      inv.items = [] ∧ inv.subtotal = 0 := by
  have htax : (0:ℚ) ≤ round3 (taxableBase 0 (coerceDiscount d) * (5/100)) :=
    round3_nonneg (mul_nonneg (taxableBase_nonneg _ _) (by norm_num))
  have hgrand : (0:ℚ) ≤ round3 (taxableBase 0 (coerceDiscount d) +
      round3 (taxableBase 0 (coerceDiscount d) * (5/100))) :=
    round3_nonneg (add_nonneg (taxableBase_nonneg _ _) htax)
  have hd2 : (0:ℚ) ≤ round3 (coerceDiscount d) := by rwa [coerceDiscount_eq]
  refine ⟨⟨generate_invoice_no store.invoices now, cn, cp, [], round3 0,
    round3 (coerceDiscount d), 5/100,
    round3 (taxableBase 0 (coerceDiscount d) * (5/100)),
    round3 (taxableBase 0 (coerceDiscount d) +
      round3 (taxableBase 0 (coerceDiscount d) * (5/100))),
    some now⟩, ?_, rfl, by show round3 0 = 0; decide⟩
  unfold create_invoice
  rw [if_pos (by rfl)]
  dsimp only [processItems]
  unfold mkInvoice
  rw [if_pos ⟨by decide, hd2, by norm_num, htax, hgrand⟩]
  rfl

/-- Witness for the amended C5: the empty cart with discount 0 yields a
recorded zero-subtotal invoice over the apple store. -/
theorem create_invoice_empty_cart_amended_witness :
    ∃ inv, create_invoice appleStore ⟨none, none, [], 0⟩ someNow =
      ({ appleStore with invoices := appleStore.invoices ++ [serializeInvoice inv] },
       .ok inv.invoice_no) ∧
      inv.items = [] ∧ inv.subtotal = 0 :=
  create_invoice_empty_cart_amended appleStore none none 0 someNow (by decide)

/- ----- C6 ----- -/

/-- Counterexample to C6 as stated: the supplied discount is not coerced
to a non-negative float — `float(-5 or 0)` is `-5` — so the computed
taxable base for subtotal 20 becomes 25, strictly above the subtotal; in
the full handler the negative stored discount then fails the invoice
schema's `ge=0` validation, an unhandled `ValidationError` (HTTP 500). -/
theorem discount_not_coerced_cex :
    coerceDiscount (-5) = -5 ∧
    taxableBase 20 (coerceDiscount (-5)) = 25 ∧
    ¬(taxableBase 20 (coerceDiscount (-5)) ≤ 20) ∧
    create_invoice appleStore ⟨none, none, [⟨oidA, 2⟩], -5⟩ someNow =
      (appleStore, .error .validationError) :=
  ⟨by decide, by decide, by decide, rfl⟩

/-- C6 (amended): the discount is used as supplied (no non-negativity
coercion), but the invoice schema's `ge=0` bound on the stored, 3-dp
rounded discount means every successfully stored invoice has discount
≥ 0, and a discount rounding below 0 always fails the request with the
store unchanged. -/
theorem discount_validation_amended (store : Store)
    (payload : CreateInvoiceRequest) (now : PyDateTime) :
    (∀ store2 no, create_invoice store payload now = (store2, .ok no) →
      ∃ inv, store2.invoices = store.invoices ++ [serializeInvoice inv] ∧
        inv.discount = round3 payload.discount ∧ 0 ≤ inv.discount) ∧
    (round3 payload.discount < 0 →
      ∃ e, create_invoice store payload now = (store, .error e)) := by
  constructor
  · intro store2 no h
    obtain ⟨its, S, inv, hproc, hmk, hstore, hno⟩ :=
      create_invoice_ok_inv store payload now store2 no h
    obtain ⟨hinv, _, hd, _⟩ := mkInvoice_ok_inv hmk
    subst hinv
    exact ⟨_, by rw [hstore], by simp [coerceDiscount_eq], by simpa using hd⟩
  · intro hneg
    by_cases hoi : payload.items.all (fun i => isValidOid i.product_id) = true
    · cases hp : processItems store payload.items with
      | error e => exact ⟨e, by simp [create_invoice, hoi, hp]⟩
      | ok pair =>
        obtain ⟨its, S⟩ := pair
        refine ⟨.validationError, ?_⟩
        have hmk : mkInvoice (generate_invoice_no store.invoices now)
            payload.customer_name payload.customer_phone its (round3 S)
            (round3 (coerceDiscount payload.discount)) (5/100)
            (round3 (taxableBase S (coerceDiscount payload.discount) * (5/100)))
            (round3 (taxableBase S (coerceDiscount payload.discount) +
              round3 (taxableBase S (coerceDiscount payload.discount) * (5/100))))
            (some now) = .error .validationError := by
          unfold mkInvoice
          rw [if_neg]
          intro hcon
          exact absurd hcon.2.1 (not_le.mpr (by rwa [coerceDiscount_eq]))
        simp [create_invoice, hoi, hp, hmk]
    · exact ⟨.invalidObjectId, by simp [create_invoice, hoi]⟩

/-- Witness for the amended C6: the successful apple sale stores a
non-negative discount, and the same cart with discount −5 fails leaving
the store unchanged. -/
theorem discount_validation_amended_witness :
    (∃ inv, appleStoreAfter.invoices = appleStore.invoices ++ [serializeInvoice inv] ∧
      inv.discount = round3 (appleSale.discount) ∧ 0 ≤ inv.discount) ∧
    (∃ e, create_invoice appleStore ⟨none, none, [⟨oidA, 2⟩], -5⟩ someNow =
      (appleStore, .error e)) :=
  ⟨(discount_validation_amended appleStore appleSale someNow).1 appleStoreAfter
      "INV-20261012-0001" appleSale_result,
   (discount_validation_amended appleStore ⟨none, none, [⟨oidA, 2⟩], -5⟩ someNow).2
      (by decide)⟩

/- ----- C7 ----- -/

theorem parseTok_plain (c : Char) (h : plainChar c = true) : parseTok c = .lit c := by
  have h1 : c ≠ '.' := fun he => by rw [he] at h; exact absurd h (by decide)
  have h2 : c ≠ '^' := fun he => by rw [he] at h; exact absurd h (by decide)
  have h3 : c ≠ '$' := fun he => by rw [he] at h; exact absurd h (by decide)
  unfold parseTok
  rw [if_neg h1, if_neg h2, if_neg h3]

theorem map_parseTok_plain (l : List Char) (h : l.all plainChar = true) :
    l.map parseTok = l.map RTok.lit := by
  apply List.map_congr_left
  intro c hc
  exact parseTok_plain c (List.all_eq_true.mp h c hc)

theorem matchFrom_lits (cs : List Char) (s : List Char) :
    matchFrom (cs.map RTok.lit) s = isPrefixCI cs s := by
  induction cs generalizing s with
  | nil => cases s <;> rfl
  | cons c cs ih =>
    cases s with
    | nil => rfl
    | cons d ds => simp [matchFrom, isPrefixCI, ih]

theorem searchAnywhere_lits (cs : List Char) (s : List Char) :
    searchAnywhere (cs.map RTok.lit) s = substrCIL cs s := by
  induction s with
  | nil => cases cs <;> rfl
  | cons c rest ih => simp [searchAnywhere, substrCIL, matchFrom_lits, ih]

/-- On metacharacter-free patterns the Mongo regex search is exactly the
case-insensitive literal substring test. -/
theorem regexSearchCI_plain (pat subject : String) (h : plainStr pat = true) :
    regexSearchCI pat subject = substrCI pat subject := by
  unfold regexSearchCI substrCI parseRegex
  rw [map_parseTok_plain pat.data h]
  generalize pat.data = cs
  cases cs with
  | nil => exact searchAnywhere_lits [] subject.data
  | cons c cs => exact searchAnywhere_lits (c :: cs) subject.data

theorem matchFrom_lits_dollar (cs s : List Char) :
    matchFrom (cs.map RTok.lit ++ [RTok.dollar]) s = eqCIL cs s := by
  induction cs generalizing s with
  | nil => cases s <;> rfl
  | cons c cs ih =>
    cases s with
    | nil => rfl
    | cons d ds => simp [matchFrom, eqCIL, ih]

/-- On metacharacter-free categories the handler's anchored
`^category$` regex is exactly the case-insensitive exact match. -/
theorem regexSearchCI_anchored (cat subject : String) (h : plainStr cat = true) :
    regexSearchCI ("^" ++ cat ++ "$") subject = eqCI cat subject := by
  unfold regexSearchCI parseRegex eqCI
  have hdata : ("^" ++ cat ++ "$").data = '^' :: (cat.data ++ ['$']) := by
    simp [String.data_append]
  rw [hdata]
  simp only [List.map_cons, List.map_append]
  show matchFrom (cat.data.map parseTok ++ ['$'].map parseTok) subject.data
    = eqCIL cat.data subject.data
  rw [map_parseTok_plain cat.data h]
  exact matchFrom_lits_dollar cat.data subject.data

def oidC : String := "cccccccccccccccccccccccc"

def oidD : String := "dddddddddddddddddddddddd"

def coffeeProd : Product := ⟨"Coffee", "General", 10, 3, 5, none⟩

def greenTeaProd : Product := ⟨"Green Tea", "General", 8, 2, 4, none⟩

def coffeeStore : Store := ⟨[(oidC, coffeeProd)], []⟩

/-- Counterexample to C7 as stated: `q` is passed to Mongo as a regex
pattern, not a literal substring — the query `q = "."` returns the
product named "Coffee" although "." is not a (case-insensitive) literal
substring of "Coffee". -/
theorem list_products_regex_not_substring_cex :
    list_products coffeeStore (some ".") none none = [(oidC, coffeeProd)] ∧
    substrCI "." coffeeProd.name = false :=
  ⟨rfl, by decide⟩

theorem qClause_eq (s name : String) (h : plainStr s = true) :
    (if s == "" then true else regexSearchCI s name) =
    (if s == "" then true else substrCI s name) := by
  by_cases hs : (s == "") = true
  · rw [if_pos hs, if_pos hs]
  · rw [if_neg hs, if_neg hs]
    exact regexSearchCI_plain s name h

theorem catClause_eq (s cat : String) (h : plainStr s = true) :
    (if s == "" then true else regexSearchCI ("^" ++ s ++ "$") cat) =
    (if s == "" then true else eqCI s cat) := by
  by_cases hs : (s == "") = true
  · rw [if_pos hs, if_pos hs]
  · rw [if_neg hs, if_neg hs]
    exact regexSearchCI_anchored s cat h

/-- C7 (amended): at most 50 products are ever returned, and as long as
the supplied `q` and `category` contain no regex metacharacters the
listing is exactly the first 50 store products matching `q` as a
case-insensitive literal substring of the name, `category` as a
case-insensitive exact match, and `barcode` exactly (empty-string
filters, being falsy, are ignored). -/
theorem list_products_amended (store : Store) (q category barcode : Option String) :
    (list_products store q category barcode).length ≤ 50 ∧
    (plainOpt q = true → plainOpt category = true →
      list_products store q category barcode =
        (store.products.filter (fun pr => specMatches q category barcode pr.2)).take 50) := by
  constructor
  · simp [list_products, List.length_take]
  · intro hq hc
    unfold list_products
    congr 1
    apply List.filter_congr
    intro pr _
    unfold productMatches specMatches
    rcases q with _ | s
    · rcases category with _ | t
      · rfl
      · dsimp only
        rw [catClause_eq t pr.2.category (by simpa [plainOpt] using hc)]
    · rcases category with _ | t
      · dsimp only
        rw [qClause_eq s pr.2.name (by simpa [plainOpt] using hq)]
      · dsimp only
        rw [qClause_eq s pr.2.name (by simpa [plainOpt] using hq),
          catClause_eq t pr.2.category (by simpa [plainOpt] using hc)]

def teaStore : Store := ⟨[(oidC, coffeeProd), (oidD, greenTeaProd)], []⟩

/-- Witness for the amended C7: `q = "tea"` over a store holding "Coffee"
and "Green Tea" returns exactly the spec-side filtered list, namely the
"Green Tea" product alone. -/
theorem list_products_amended_witness :
    (list_products teaStore (some "tea") none none).length ≤ 50 ∧
    list_products teaStore (some "tea") none none =
      (teaStore.products.filter
        (fun pr => specMatches (some "tea") none none pr.2)).take 50 ∧
    list_products teaStore (some "tea") none none = [(oidD, greenTeaProd)] :=
  ⟨(list_products_amended teaStore (some "tea") none none).1,
   (list_products_amended teaStore (some "tea") none none).2 (by decide) rfl,
   rfl⟩

/- ----- C9 ----- -/

theorem sumField_map_serialize (sel : List Invoice) (k : String)
    (f : Invoice → ℚ) (hf : ∀ i, docNum (serializeInvoice i) k = f i) :
    sumField (sel.map serializeInvoice) k = (sel.map f).sum := by
  unfold sumField
  rw [List.map_map]
  congr 1
  apply List.map_congr_left
  intro i _
  exact hf i

/-- The handler's interval end coincides with the first instant of the
following month, December rolling over to January. -/
theorem stop_eq_nextMonthStart (y m : Nat) :
    (⟨y + (if m == 12 then 1 else 0), if m == 12 then 1 else m + 1,
      1, 0, 0, 0⟩ : PyDateTime) = nextMonthStart y m := by
  by_cases h : m = 12 <;> simp [nextMonthStart, h]

/-- C9 (confirmed): for explicit (non-zero) year and month the monthly
report aggregates exactly the recorded invoices whose creation timestamp
lies in `[first instant of the month, first instant of the following
month)` — December rolling over to January of the next year — summing
`grand_total`, `subtotal`, `discount` and `tax_amount` and counting them,
and it returns the all-zero row when no invoice falls in the interval
(the sums over an empty selection are zero). -/
theorem monthly_report_spec (invs : List Invoice) (y m : Nat)
    (now : PyDateTime) (hy : y ≠ 0) (hm1 : 1 ≤ m) (hm2 : m ≤ 12) :
    monthly_report (invs.map serializeInvoice) (some y) (some m) now =
      ⟨((invs.filter (fun i => inMonth y m i.created_at)).map
          (fun i => i.grand_total)).sum,
       ((invs.filter (fun i => inMonth y m i.created_at)).map
          (fun i => i.subtotal)).sum,
       ((invs.filter (fun i => inMonth y m i.created_at)).map
          (fun i => i.discount)).sum,
       ((invs.filter (fun i => inMonth y m i.created_at)).map
          (fun i => i.tax_amount)).sum,
       (invs.filter (fun i => inMonth y m i.created_at)).length⟩ := by
  unfold monthly_report
  dsimp only
  rw [if_pos hy, if_pos (by omega : m ≠ 0)]
  have hmatch : (invs.map serializeInvoice).filter (fun d =>
      match docDT d "created_at" with
      | some t => pdtLE ⟨y, m, 1, 0, 0, 0⟩ t &&
          pdtLT t ⟨y + (if m == 12 then 1 else 0),
            if m == 12 then 1 else m + 1, 1, 0, 0, 0⟩
      | none => false) =
      (invs.filter (fun i => inMonth y m i.created_at)).map serializeInvoice := by
    rw [List.filter_map]
    congr 1
    apply List.filter_congr
    intro i _
    show (match docDT (serializeInvoice i) "created_at" with
      | some t => pdtLE ⟨y, m, 1, 0, 0, 0⟩ t &&
          pdtLT t ⟨y + (if m == 12 then 1 else 0),
            if m == 12 then 1 else m + 1, 1, 0, 0, 0⟩
      | none => false) = inMonth y m i.created_at
    rw [serializeInvoice_created_at, stop_eq_nextMonthStart]
    cases hca : i.created_at <;> rfl
  rw [hmatch]
  by_cases hemp : invs.filter (fun i => inMonth y m i.created_at) = []
  · rw [hemp]
    rfl
  · have hne : ((invs.filter (fun i => inMonth y m i.created_at)).map
        serializeInvoice).isEmpty = false := by
      simp [List.isEmpty_iff, hemp]
    rw [if_neg (by simp [hne])]
    rw [sumField_map_serialize _ _ _ serializeInvoice_grand_total,
      sumField_map_serialize _ _ _ serializeInvoice_subtotal,
      sumField_map_serialize _ _ _ serializeInvoice_discount,
      sumField_map_serialize _ _ _ serializeInvoice_tax_amount,
      List.length_map]

def invDec1 : Invoice :=
  ⟨"INV-20251201-0001", none, none, [], 10, 0, 5/100, 1/2, 21/2,
   some ⟨2025, 12, 1, 0, 0, 0⟩⟩

def invDec31 : Invoice :=
  ⟨"INV-20251231-0001", none, none, [], 20, 0, 5/100, 1, 21,
   some ⟨2025, 12, 31, 23, 59, 59⟩⟩

def invJan1 : Invoice :=
  ⟨"INV-20260101-0001", none, none, [], 40, 0, 5/100, 2, 42,
   some ⟨2026, 1, 1, 0, 0, 0⟩⟩

/-- Witness for C9 at the December boundary: the December 2025 report
over invoices from Dec 1, Dec 31 23:59:59 and Jan 1 of the next year
aggregates exactly the two December ones and excludes January 1. -/
theorem monthly_report_spec_witness :
    monthly_report ([invDec1, invDec31, invJan1].map serializeInvoice)
        (some 2025) (some 12) someNow =
      ⟨(([invDec1, invDec31, invJan1].filter
          (fun i => inMonth 2025 12 i.created_at)).map
            (fun i => i.grand_total)).sum,
       (([invDec1, invDec31, invJan1].filter
          (fun i => inMonth 2025 12 i.created_at)).map
            (fun i => i.subtotal)).sum,
       (([invDec1, invDec31, invJan1].filter
          (fun i => inMonth 2025 12 i.created_at)).map
            (fun i => i.discount)).sum,
       (([invDec1, invDec31, invJan1].filter
          (fun i => inMonth 2025 12 i.created_at)).map
            (fun i => i.tax_amount)).sum,
       ([invDec1, invDec31, invJan1].filter
          (fun i => inMonth 2025 12 i.created_at)).length⟩ ∧
    [invDec1, invDec31, invJan1].filter (fun i => inMonth 2025 12 i.created_at) =
      [invDec1, invDec31] ∧
    inMonth 2025 12 invJan1.created_at = false :=
  ⟨monthly_report_spec [invDec1, invDec31, invJan1] 2025 12 someNow
      (by decide) (by decide) (by decide),
   by decide, by decide⟩
